import Mathlib

/-
Shallow embedding of the mcp-todo repository core: the sqlite-backed
TodoServiceImpl (todoService.js, displayOrder variant), the web chat
dispatcher executeMCPTool and chat orchestration loop (server.js,
logging variant), the stdio MCP dispatcher (index.js, zod-validating
variant), and the zod schemas of schemas.js.

Modelling conventions:
  - the sqlite table is a List Todo; a row UPDATE ... WHERE id = ?
    maps every row whose id matches;
  - machine numbers are Int (sqlite INTEGER); timestamps and dates are
    ISO strings compared bytewise, exactly as sqlite compares TEXT;
  - fallible operations return Except String;
  - JS truthiness of the relevant expressions is modelled explicitly
    (jsOrInt, jsCondBool, jsNonEmptyString);
  - zod z.object parsing strips keys absent from the schema, so parse
    results are records holding only schema fields (a stripped field is
    modelled as the constant none);
  - z.string().uuid() is modelled as the hex-and-dashes shape check
    isUuidFormat (8-4-4-4-12 hex groups), the common core of every zod
    version of that regex; z.string().datetime() is not checked (the
    claims never depend on it), it is modelled as a passthrough.
-/

namespace McpTodo

/-- Todo record, mirroring rowToTodo of todoService.js (displayOrder
variant): id, text, completed, starred, priority, tags, dueDate,
displayOrder, createdAt, updatedAt. -/
structure Todo where
  id : String
  text : String
  completed : Bool
  starred : Bool
  priority : Int
  tags : List String
  dueDate : Option String
  displayOrder : Int
  createdAt : String
  updatedAt : String
deriving DecidableEq, Repr

/-- JS expression `m || d` for a nullable integer m: null and 0 are
falsy, every other integer is truthy. -/
def jsOrInt (m : Option Int) (d : Int) : Int :=
  match m with
  | none => d
  | some v => if v = 0 then d else v

/-- JS expression `b ? x : y` for a possibly-undefined boolean b:
undefined and false are falsy. -/
def jsCondBool (b : Option Bool) : Bool :=
  match b with
  | some true => true
  | _ => false

/-- JS expression `s ? ... : undefined` for a possibly-undefined string:
undefined and the empty string are falsy. -/
def jsNonEmptyString (s : Option String) : Option String :=
  match s with
  | none => none
  | some v => if v.length = 0 then none else some v

/-- Drop leading whitespace characters from a character list. -/
def trimLeftList : List Char → List Char
  | [] => []
  | c :: rest => if c.isWhitespace then trimLeftList rest else c :: rest

/-- JS String.prototype.trim: drop leading and trailing whitespace. -/
def jsTrim (s : String) : String :=
  ⟨(trimLeftList (trimLeftList s.data).reverse).reverse⟩

/-- Bytewise (code-point) lexicographic strict comparison on character
lists, the order sqlite uses for TEXT columns. -/
def charListLe : List Char → List Char → Bool
  | [], _ => true
  | _ :: _, [] => false
  | a :: as, b :: bs =>
    if a.toNat < b.toNat then true
    else if b.toNat < a.toNat then false
    else charListLe as bs

/-- Bytewise string comparison, non-strict. -/
def strLe (a b : String) : Bool := charListLe a.data b.data

/-- Bytewise string comparison, strict. -/
def strLt (a b : String) : Bool := charListLe a.data b.data && !(a == b)

/-- Hexadecimal digit, either case. -/
def isHexChar (c : Char) : Bool :=
  c.isDigit || ('a' ≤ c && c ≤ 'f') || ('A' ≤ c && c ≤ 'F')

/-- Shape check behind z.string().uuid(): 36 characters, dashes at
positions 8, 13, 18 and 23, hexadecimal digits everywhere else. -/
def isUuidFormat (s : String) : Bool :=
  let cs := s.toList
  cs.length = 36 &&
    (List.range 36).all fun i =>
      if i = 8 || i = 13 || i = 18 || i = 23 then
        cs.getD i ' ' = '-'
      else
        isHexChar (cs.getD i ' ')

/-- SQL SELECT MAX(displayOrder) FROM todos: NULL on an empty table,
otherwise the maximum. -/
def maxDisplayOrder (s : List Todo) : Option Int :=
  (s.map Todo.displayOrder).max?

/-- Creation metadata as received by createTodo before validation; the
completed key can be present in the bag but TodoCreateMetadataSchema
does not declare it, so parsing strips it. -/
structure CreateMetadataRaw where
  completed : Option Bool := none
  starred : Option Bool := none
  priority : Option Int := none
  tags : Option (List String) := none
  dueDate : Option String := none
deriving DecidableEq, Repr

/-- Parse result of TodoCreateMetadataSchema: only starred, priority,
tags, dueDate survive; priority must be an integer in [1,5]. -/
structure CreateMetadata where
  starred : Option Bool
  priority : Option Int
  tags : Option (List String)
  dueDate : Option String
deriving DecidableEq, Repr

/-- TodoCreateMetadataSchema.parse: checks the optional priority range
and strips every key the schema does not declare (notably completed). -/
def parseCreateMetadata (m : CreateMetadataRaw) : Except String CreateMetadata :=
  match m.priority with
  | some p =>
      if 1 ≤ p ∧ p ≤ 5 then
        .ok ⟨m.starred, m.priority, m.tags, m.dueDate⟩
      else
        .error "Number must be between 1 and 5"
  | none => .ok ⟨m.starred, m.priority, m.tags, m.dueDate⟩

/-- TodoServiceImpl.createTodo. The text argument is an Option so that
a non-string (undefined) argument, which the JS typeof guard rejects,
is representable. The fresh uuid and the clock reading are passed in
as arguments id and now. Returns the created todo and the new store. -/
def createTodo (text : Option String) (meta : CreateMetadataRaw)
    (id now : String) (s : List Todo) : Except String (Todo × List Todo) :=
  match text with
  | none => .error "Todo text is required and cannot be empty"
  | some tx =>
    if (jsTrim tx).length = 0 then
      .error "Todo text is required and cannot be empty"
    else
      match parseCreateMetadata meta with
      | .error e => .error e
      | .ok m =>
        let d := jsOrInt (maxDisplayOrder s) 0 + 1
        let t : Todo :=
          { id := id
            text := jsTrim tx
            completed := false
            starred := jsCondBool m.starred
            priority := jsOrInt m.priority 3
            tags := m.tags.getD []
            dueDate := m.dueDate
            displayOrder := d
            createdAt := now
            updatedAt := now }
        .ok (t, s ++ [t])

/-- Update bag as received by updateTodo before validation. The
displayOrder key can be present in the bag, but TodoUpdateSchema
(schemas.js lines 22 to 30) does not declare it, so parsing strips
it and the displayOrder branch of updateTodo never fires. -/
structure UpdateRaw where
  text : Option String := none
  completed : Option Bool := none
  starred : Option Bool := none
  priority : Option Int := none
  tags : Option (List String) := none
  dueDate : Option (Option String) := none
  displayOrder : Option Int := none
deriving DecidableEq, Repr

/-- TodoUpdateSchema.parse on the spread object, with the id passed
alongside: id must be a uuid, text (when present) must have length at
least one before trimming, priority (when present) must be an integer
in [1,5]; keys outside the schema, notably displayOrder, are
stripped. -/
def parseTodoUpdate (id : String) (u : UpdateRaw) : Except String UpdateRaw :=
  if ¬ isUuidFormat id then .error "Invalid uuid"
  else
    match u.text with
    | some tx =>
        if tx.length ≥ 1 then
          match u.priority with
          | some p =>
              if 1 ≤ p ∧ p ≤ 5 then .ok { u with displayOrder := none }
              else .error "Number must be between 1 and 5"
          | none => .ok { u with displayOrder := none }
        else .error "String must contain at least 1 character(s)"
    | none =>
        match u.priority with
        | some p =>
            if 1 ≤ p ∧ p ≤ 5 then .ok { u with displayOrder := none }
            else .error "Number must be between 1 and 5"
        | none => .ok { u with displayOrder := none }

/-- Field-by-field application of the validated update to the current
row, mirroring the dynamic UPDATE statement built by updateTodo:
present fields are written (text is trimmed first), absent fields are
left alone, updatedAt is always written. -/
def applyUpdate (u : UpdateRaw) (now : String) (t : Todo) : Todo :=
  { t with
    text := match u.text with | some tx => jsTrim tx | none => t.text
    completed := u.completed.getD t.completed
    starred := u.starred.getD t.starred
    priority := u.priority.getD t.priority
    tags := u.tags.getD t.tags
    dueDate := u.dueDate.getD t.dueDate
    displayOrder := u.displayOrder.getD t.displayOrder
    updatedAt := now }

/-- TodoServiceImpl.updateTodo: validate, look the row up, fail when it
is missing, otherwise write the supplied fields and return the
re-selected row together with the new store. -/
def updateTodo (id : String) (u : UpdateRaw) (now : String)
    (s : List Todo) : Except String (Todo × List Todo) :=
  match parseTodoUpdate id u with
  | .error e => .error e
  | .ok v =>
    match s.find? (fun t => t.id = id) with
    | none => .error ("Todo " ++ id ++ " not found")
    | some t =>
      let t2 := applyUpdate v now t
      .ok (t2, s.map fun x => if x.id = id then t2 else x)

/-- TodoServiceImpl.deleteTodo: z.string().uuid().parse(id) throws on a
malformed id; otherwise DELETE FROM todos WHERE id = ? and report
whether the number of removed rows is positive. -/
def deleteTodo (id : String) (s : List Todo) : Except String (Bool × List Todo) :=
  if ¬ isUuidFormat id then .error "Invalid uuid"
  else
    let s2 := s.filter fun t => ¬ (t.id = id)
    .ok (decide (s2.length < s.length), s2)

/-- Filter bag for getTodos, shaped like TodoFiltersSchema. -/
structure TodoFilters where
  starred : Option Bool := none
  priority : Option Int := none
  tags : Option (List String) := none
  completed : Option Bool := none
deriving DecidableEq, Repr

/-- TodoFiltersSchema.parse succeeds iff the optional priority is an
integer in [1,5]; the other fields are type-checked only. -/
def validFilters (f : TodoFilters) : Bool :=
  match f.priority with
  | some p => decide (1 ≤ p ∧ p ≤ 5)
  | none => true

/-- SQL WHERE clause built by getTodos: equality tests for each of the
supplied starred, priority and completed filters. -/
def sqlWhere (f : TodoFilters) (t : Todo) : Bool :=
  (match f.starred with | some b => t.starred = b | none => true) &&
  (match f.priority with | some p => t.priority = p | none => true) &&
  (match f.completed with | some b => t.completed = b | none => true)

/-- Comparison behind ORDER BY displayOrder ASC, priority ASC,
createdAt DESC; sqlite compares the TEXT createdAt column bytewise. -/
def todoLe (a b : Todo) : Bool :=
  if a.displayOrder < b.displayOrder then true
  else if b.displayOrder < a.displayOrder then false
  else if a.priority < b.priority then true
  else if b.priority < a.priority then false
  else strLe b.createdAt a.createdAt

/-- In-memory tag filter of getTodos: a missing or empty tags filter
passes every row, otherwise the row must carry at least one of the
requested tags. -/
def tagPass (f : TodoFilters) (t : Todo) : Bool :=
  match f.tags with
  | none => true
  | some ts => if ts.length = 0 then true else ts.any fun tag => t.tags.contains tag

/-- TodoServiceImpl.getTodos: validate the filters, apply the SQL WHERE
clause, sort by the ORDER BY key, then apply the in-memory tag
filter. -/
def getTodos (f : TodoFilters) (s : List Todo) : Except String (List Todo) :=
  if ¬ validFilters f then .error "Invalid filters"
  else
    let rows := s.filter (sqlWhere f)
    let sorted := rows.mergeSort todoLe
    .ok (sorted.filter (tagPass f))

/-- One UPDATE todos SET displayOrder = ?, updatedAt = ? WHERE id = ?
statement of reorderTodos. -/
def reorderOne (idx : Int) (now id : String) (s : List Todo) : List Todo :=
  s.map fun t =>
    if t.id = id then { t with displayOrder := idx, updatedAt := now } else t

/-- Body of the reorderTodos transaction:
ids.forEach((id, index) => updateStmt.run(index, now, id)), with n the
index of the first remaining id. -/
def applyReorder (now : String) : Nat → List String → List Todo → List Todo
  | _, [], s => s
  | n, id :: rest, s => applyReorder now (n + 1) rest (reorderOne n now id s)

/-- TodoServiceImpl.reorderTodos: run the per-id updates in order
inside one transaction. The non-array guard is outside the model (the
argument type is already a list). -/
def reorderTodos (ids : List String) (now : String) (s : List Todo) : List Todo :=
  applyReorder now 0 ids s

/-- Argument bag of a tool invocation, holding every field any of the
six tools reads. A missing key is none; values are typed, so only
missing and out-of-range arguments are representable, not arguments of
the wrong JSON type. -/
structure ToolArgs where
  id : Option String := none
  text : Option String := none
  completed : Option Bool := none
  starred : Option Bool := none
  priority : Option Int := none
  tags : Option (List String) := none
  dueDate : Option String := none
deriving DecidableEq, Repr

/-- Stand-in for JSON.stringify on a returned todo; the claims never
inspect this text, only that it is the success payload. -/
def serializeTodo (t : Todo) : String := reprStr t

/-- Stand-in for JSON.stringify on a returned todo list. -/
def serializeTodos (ts : List Todo) : String := reprStr ts

/-- Serialization of the delete wrapper object built by the
dispatchers: success flag plus a human message. -/
def serializeDeleteResult (b : Bool) : String :=
  reprStr b ++ (if b then ": Todo deleted successfully" else ": Todo not found")

/-- Creation metadata bag built by the web dispatcher for create_todo:
starred, priority, tags and a dueDate that is only set when the raw
string is truthy. -/
def webCreateMetadata (args : ToolArgs) : CreateMetadataRaw :=
  { completed := none
    starred := args.starred
    priority := args.priority
    tags := args.tags
    dueDate := jsNonEmptyString args.dueDate }

/-- Update bag built by the web dispatcher for update_todo: every key
is set from args, dueDate only when the raw string is truthy. -/
def webUpdateBag (args : ToolArgs) : UpdateRaw :=
  { text := args.text
    completed := args.completed
    starred := args.starred
    priority := args.priority
    tags := args.tags
    dueDate := (jsNonEmptyString args.dueDate).map some
    displayOrder := none }

/-- executeMCPTool of the web server (part with request logging): a
switch from tool name straight to the matching TodoService method,
with no validation of its own. Returns the serialized result or the
thrown error text, the resulting store, and the number of TodoService
methods that were invoked. The fresh uuid and clock reading used by
the service are the freshId and now arguments. -/
def executeMCPTool (freshId now : String) (name : String) (args : ToolArgs)
    (s : List Todo) : Except String String × List Todo × Nat :=
  match name with
  | "create_todo" =>
      match createTodo args.text (webCreateMetadata args) freshId now s with
      | .ok (t, s2) => (.ok (serializeTodo t), s2, 1)
      | .error e => (.error e, s, 1)
  | "list_todos" =>
      match getTodos ⟨args.starred, args.priority, args.tags, args.completed⟩ s with
      | .ok ts => (.ok (serializeTodos ts), s, 1)
      | .error e => (.error e, s, 1)
  | "update_todo" =>
      match args.id with
      | none => (.error "Required", s, 1)
      | some i =>
          match updateTodo i (webUpdateBag args) now s with
          | .ok (t, s2) => (.ok (serializeTodo t), s2, 1)
          | .error e => (.error e, s, 1)
  | "delete_todo" =>
      match args.id with
      | none => (.error "Required", s, 1)
      | some i =>
          match deleteTodo i s with
          | .ok (b, s2) => (.ok (serializeDeleteResult b), s2, 1)
          | .error e => (.error e, s, 1)
  | "toggle_starred" =>
      match args.id with
      | none => (.error "Required", s, 1)
      | some i =>
          match updateTodo i { starred := args.starred } now s with
          | .ok (t, s2) => (.ok (serializeTodo t), s2, 1)
          | .error e => (.error e, s, 1)
  | "set_priority" =>
      match args.id with
      | none => (.error "Required", s, 1)
      | some i =>
          match updateTodo i { priority := args.priority } now s with
          | .ok (t, s2) => (.ok (serializeTodo t), s2, 1)
          | .error e => (.error e, s, 1)
  | _ => (.error ("Unknown tool: " ++ name), s, 0)

/-- Content block of a conversation message. The toolResult variant
carries the optional isError flag of the wire format; the orchestrator
under verification builds tool_result blocks from the literal object
keys type, tool_use_id and content only, so the flag it emits is
always none. -/
inductive Block where
  | text (s : String)
  | toolUse (id name : String) (input : ToolArgs)
  | toolResult (toolUseId content : String) (isError : Option Bool)
deriving DecidableEq, Repr

/-- Message content: a plain string or a list of blocks. -/
inductive MsgContent where
  | str (s : String)
  | blocks (bs : List Block)
deriving DecidableEq, Repr

/-- Conversation message. -/
structure Message where
  role : String
  content : MsgContent
deriving DecidableEq, Repr

/-- LLM completion response: stop reason plus content blocks. -/
structure LlmResponse where
  stop_reason : String
  content : List Block
deriving DecidableEq, Repr

/-- response.content.find(block => block.type === 'tool_use'),
projected to the fields the loop reads. -/
def findToolUse : List Block → Option (String × String × ToolArgs)
  | [] => none
  | .toolUse i n a :: _ => some (i, n, a)
  | _ :: rest => findToolUse rest

/-- response.content.find(block => block.type === 'text'), projected
to the text. -/
def findFirstText : List Block → Option String
  | [] => none
  | .text s :: _ => some s
  | _ :: rest => findFirstText rest

/-- Try/catch around the tool execution in the chat loop: a successful
execution gives the serialized result and the new state, a thrown
error gives the text Error: message and leaves the state as the
executor left it (every modelled store operation fails before
mutating). -/
def execResult {σ : Type} (exec : String → ToolArgs → σ → Except String (String × σ))
    (name : String) (args : ToolArgs) (st : σ) : String × σ :=
  match exec name args st with
  | .ok (out, st2) => (out, st2)
  | .error e => ("Error: " ++ e, st)

/-- Tool-use loop of app.post(/chat): while the stop reason is
tool_use, take the first tool_use block (breaking defensively when
there is none), execute it, append the assistant response and a
tool_result user message, and consume the next scripted response. The
script models the successive returns of the LLM endpoint; an exhausted
script while the loop still wants a response is the stuck case none.
The counter is the number of tool executions performed. -/
def runLoop {σ : Type} (exec : String → ToolArgs → σ → Except String (String × σ)) :
    List LlmResponse → LlmResponse → List Message → σ → Nat →
    Option (LlmResponse × List Message × σ × Nat)
  | script, resp, msgs, st, n =>
    if resp.stop_reason = "tool_use" then
      match findToolUse resp.content with
      | none => some (resp, msgs, st, n)
      | some (tid, tname, targs) =>
        let r := execResult exec tname targs st
        let msgs2 := msgs ++
          [⟨"assistant", .blocks resp.content⟩,
           ⟨"user", .blocks [.toolResult tid r.1 none]⟩]
        match script with
        | [] => none
        | next :: rest => runLoop exec rest next msgs2 r.2 (n + 1)
    else
      some (resp, msgs, st, n)

/-- One chat turn of app.post(/chat): append the user message to the
history, run the tool-use loop starting from the first completion,
then extract the first text block of the final response (or the
fallback No response) and return it with the final history, the final
state and the number of tool executions. -/
def chat {σ : Type} (exec : String → ToolArgs → σ → Except String (String × σ))
    (history : List Message) (userMsg : String)
    (first : LlmResponse) (script : List LlmResponse) (st : σ) :
    Option (String × List Message × σ × Nat) :=
  let messages := history ++ [⟨"user", .str userMsg⟩]
  match runLoop exec script first messages st 0 with
  | none => none
  | some (finalResp, msgs, st2, n) =>
      some ((findFirstText finalResp.content).getD "No response",
        msgs ++ [⟨"assistant", .blocks finalResp.content⟩], st2, n)

/-- Executor wrapper tying the chat loop to the web dispatcher with a
fixed fresh uuid and clock reading. -/
def webExec (freshId now : String) :
    String → ToolArgs → List Todo → Except String (String × List Todo) :=
  fun name args s =>
    match executeMCPTool freshId now name args s with
    | (.ok out, s2, _) => .ok (out, s2)
    | (.error e, _, _) => .error e

/-- CreateTodoInputSchema.parse: text required and nonempty, priority
an optional integer in [1,5]; returns the text and the metadata bag
built from the parsed input. -/
def parseCreateTodoInput (args : ToolArgs) : Except String (String × CreateMetadataRaw) :=
  match args.text with
  | none => .error "Required"
  | some tx =>
    if tx.length < 1 then .error "Todo text is required"
    else
      match args.priority with
      | some p =>
          if 1 ≤ p ∧ p ≤ 5 then .ok (tx, webCreateMetadata args)
          else .error "Number must be between 1 and 5"
      | none => .ok (tx, webCreateMetadata args)

/-- ListTodosInputSchema.parse: optional priority in [1,5]. -/
def parseListTodosInput (args : ToolArgs) : Except String TodoFilters :=
  match args.priority with
  | some p =>
      if 1 ≤ p ∧ p ≤ 5 then .ok ⟨args.starred, args.priority, args.tags, args.completed⟩
      else .error "Number must be between 1 and 5"
  | none => .ok ⟨args.starred, args.priority, args.tags, args.completed⟩

/-- UpdateTodoInputSchema.parse: id required in uuid format, text
optional nonempty, priority optional in [1,5]; returns the id and the
update bag built from the parsed input. -/
def parseUpdateTodoInput (args : ToolArgs) : Except String (String × UpdateRaw) :=
  match args.id with
  | none => .error "Required"
  | some i =>
    if ¬ isUuidFormat i then .error "Valid todo ID required"
    else
      match args.text with
      | some tx =>
          if tx.length < 1 then .error "String must contain at least 1 character(s)"
          else
            match args.priority with
            | some p =>
                if 1 ≤ p ∧ p ≤ 5 then .ok (i, webUpdateBag args)
                else .error "Number must be between 1 and 5"
            | none => .ok (i, webUpdateBag args)
      | none =>
          match args.priority with
          | some p =>
              if 1 ≤ p ∧ p ≤ 5 then .ok (i, webUpdateBag args)
              else .error "Number must be between 1 and 5"
          | none => .ok (i, webUpdateBag args)

/-- DeleteTodoInputSchema.parse: id required in uuid format. -/
def parseDeleteTodoInput (args : ToolArgs) : Except String String :=
  match args.id with
  | none => .error "Required"
  | some i =>
    if ¬ isUuidFormat i then .error "Valid todo ID required" else .ok i

/-- ToggleStarredInputSchema.parse: id required in uuid format, starred
required. -/
def parseToggleStarredInput (args : ToolArgs) : Except String (String × Bool) :=
  match args.id with
  | none => .error "Required"
  | some i =>
    if ¬ isUuidFormat i then .error "Valid todo ID required"
    else
      match args.starred with
      | none => .error "Required"
      | some b => .ok (i, b)

/-- SetPriorityInputSchema.parse: id required in uuid format, priority
required in [1,5]. -/
def parseSetPriorityInput (args : ToolArgs) : Except String (String × Int) :=
  match args.id with
  | none => .error "Required"
  | some i =>
    if ¬ isUuidFormat i then .error "Valid todo ID required"
    else
      match args.priority with
      | none => .error "Required"
      | some p =>
          if 1 ≤ p ∧ p ≤ 5 then .ok (i, p)
          else .error "Priority must be between 1 and 5"

/-- Tool result of the stdio MCP server: content text plus the isError
flag it does emit. -/
structure CallToolResult where
  content : String
  isError : Bool
deriving DecidableEq, Repr

/-- CallTool handler of the stdio MCP server (index.js, zod-validating
variant): parse the arguments with the per-tool input schema first,
then invoke the TodoService method; any thrown error (a parse failure
or a service failure) is caught and turned into an isError result with
the text Error: message. The third component counts TodoService
invocations. -/
def handleCallTool (freshId now : String) (name : String) (args : ToolArgs)
    (s : List Todo) : CallToolResult × List Todo × Nat :=
  match name with
  | "create_todo" =>
      match parseCreateTodoInput args with
      | .error e => (⟨"Error: " ++ e, true⟩, s, 0)
      | .ok (tx, meta) =>
          match createTodo (some tx) meta freshId now s with
          | .ok (t, s2) => (⟨serializeTodo t, false⟩, s2, 1)
          | .error e => (⟨"Error: " ++ e, true⟩, s, 1)
  | "list_todos" =>
      match parseListTodosInput args with
      | .error e => (⟨"Error: " ++ e, true⟩, s, 0)
      | .ok f =>
          match getTodos f s with
          | .ok ts => (⟨serializeTodos ts, false⟩, s, 1)
          | .error e => (⟨"Error: " ++ e, true⟩, s, 1)
  | "update_todo" =>
      match parseUpdateTodoInput args with
      | .error e => (⟨"Error: " ++ e, true⟩, s, 0)
      | .ok (i, u) =>
          match updateTodo i u now s with
          | .ok (t, s2) => (⟨serializeTodo t, false⟩, s2, 1)
          | .error e => (⟨"Error: " ++ e, true⟩, s, 1)
  | "delete_todo" =>
      match parseDeleteTodoInput args with
      | .error e => (⟨"Error: " ++ e, true⟩, s, 0)
      | .ok i =>
          match deleteTodo i s with
          | .ok (b, s2) => (⟨if b then "Todo deleted successfully" else "Todo not found", false⟩, s2, 1)
          | .error e => (⟨"Error: " ++ e, true⟩, s, 1)
  | "toggle_starred" =>
      match parseToggleStarredInput args with
      | .error e => (⟨"Error: " ++ e, true⟩, s, 0)
      | .ok (i, b) =>
          match updateTodo i { starred := some b } now s with
          | .ok (t, s2) => (⟨serializeTodo t, false⟩, s2, 1)
          | .error e => (⟨"Error: " ++ e, true⟩, s, 1)
  | "set_priority" =>
      match parseSetPriorityInput args with
      | .error e => (⟨"Error: " ++ e, true⟩, s, 0)
      | .ok (i, p) =>
          match updateTodo i { priority := some p } now s with
          | .ok (t, s2) => (⟨serializeTodo t, false⟩, s2, 1)
          | .error e => (⟨"Error: " ++ e, true⟩, s, 1)
  | _ => (⟨"Error: Unknown tool: " ++ name, true⟩, s, 0)

/-- Names of the six registered tools. -/
def knownTools : List String :=
  ["create_todo", "list_todos", "update_todo", "delete_todo",
   "toggle_starred", "set_priority"]

/-- Combined argument-shape check of the stdio dispatcher, one case per
registered tool, reduced to its success or failure. -/
def toolParse (name : String) (args : ToolArgs) : Except String Unit :=
  match name with
  | "create_todo" => (parseCreateTodoInput args).map fun _ => ()
  | "list_todos" => (parseListTodosInput args).map fun _ => ()
  | "update_todo" => (parseUpdateTodoInput args).map fun _ => ()
  | "delete_todo" => (parseDeleteTodoInput args).map fun _ => ()
  | "toggle_starred" => (parseToggleStarredInput args).map fun _ => ()
  | "set_priority" => (parseSetPriorityInput args).map fun _ => ()
  | _ => .ok ()

/-- Ordering predicate stated by the spec: displayOrder ascending, then
priority ascending, then createdAt descending. -/
def specOrder (a b : Todo) : Prop :=
  a.displayOrder < b.displayOrder ∨
    (a.displayOrder = b.displayOrder ∧
      (a.priority < b.priority ∨
        (a.priority = b.priority ∧ strLe b.createdAt a.createdAt = true)))

/-- Tag predicate exactly as the claim words it: an item passes a
supplied tags filter iff it carries at least one of the requested
tags (no special case for an empty request list). -/
def specTagFilterStrict (f : TodoFilters) (t : Todo) : Bool :=
  match f.tags with
  | none => true
  | some ts => ts.any fun tag => t.tags.contains tag

/-- Matching predicate of the amended listing claim: intersection of
the supplied starred, completed and exact-priority predicates, with a
supplied tags filter passing an item iff the requested list is empty
or the item carries at least one requested tag. -/
def specMatches (f : TodoFilters) (t : Todo) : Bool :=
  (match f.starred with | some b => t.starred = b | none => true) &&
  (match f.completed with | some b => t.completed = b | none => true) &&
  (match f.priority with | some p => t.priority = p | none => true) &&
  (match f.tags with
   | none => true
   | some ts => ts.isEmpty || ts.any fun tag => t.tags.contains tag)

/-- Sample uuid-formatted identifiers. -/
def uuidA : String := "00000000-0000-0000-0000-00000000000a"

/-- Second sample identifier. -/
def uuidB : String := "00000000-0000-0000-0000-00000000000b"

/-- Third sample identifier. -/
def uuidC : String := "00000000-0000-0000-0000-00000000000c"

/-- Sample stored todo. -/
def tA : Todo :=
  { id := uuidA, text := "A", completed := false, starred := false,
    priority := 3, tags := [], dueDate := none, displayOrder := 1,
    createdAt := "2025-01-01T00:00:00.000Z",
    updatedAt := "2025-01-01T00:00:00.000Z" }

/-- Second sample stored todo. -/
def tB : Todo :=
  { id := uuidB, text := "B", completed := false, starred := true,
    priority := 2, tags := ["work"], dueDate := none, displayOrder := 2,
    createdAt := "2025-01-02T00:00:00.000Z",
    updatedAt := "2025-01-02T00:00:00.000Z" }

/-- Third sample stored todo. -/
def tC : Todo :=
  { id := uuidC, text := "C", completed := true, starred := false,
    priority := 1, tags := ["home"], dueDate := none, displayOrder := 3,
    createdAt := "2025-01-03T00:00:00.000Z",
    updatedAt := "2025-01-03T00:00:00.000Z" }

/-- Shape of every successful createTodo result: completed is false,
displayOrder is the truthiness-defaulted maximum plus one, both
timestamps are the clock reading, and the row is appended. -/
theorem createTodo_ok_shape {text : Option String} {meta : CreateMetadataRaw}
    {id now : String} {s : List Todo} {t : Todo} {s2 : List Todo}
    (h : createTodo text meta id now s = Except.ok (t, s2)) :
    t.completed = false ∧
    t.displayOrder = jsOrInt (maxDisplayOrder s) 0 + 1 ∧
    t.createdAt = now ∧ t.updatedAt = now ∧ s2 = s ++ [t] := by
  cases text with
  | none => simp [createTodo] at h
  | some tx =>
    simp only [createTodo] at h
    split at h
    · exact absurd h (by simp)
    · split at h
      · exact absurd h (by simp)
      · simp only [Except.ok.injEq, Prod.mk.injEq] at h
        obtain ⟨h1, h2⟩ := h
        subst h1
        subst h2
        refine ⟨rfl, rfl, rfl, rfl, rfl⟩

/-- C2 counterexample: creating into an empty store yields
displayOrder 1, not the 0 announced by the claim, because the SQL MAX
is NULL and the JS expression null-or-0 plus 1 evaluates to 1. -/
theorem createTodo_emptyStore_displayOrder_one :
    ∃ t s2, createTodo (some "a") {} "id1" "t0" [] = Except.ok (t, s2) ∧
      t.displayOrder = 1 ∧ ¬ t.displayOrder = 0 :=
  ⟨{ id := "id1", text := "a", completed := false, starred := false,
     priority := 3, tags := [], dueDate := none, displayOrder := 1,
     createdAt := "t0", updatedAt := "t0" },
   [{ id := "id1", text := "a", completed := false, starred := false,
      priority := 3, tags := [], dueDate := none, displayOrder := 1,
      createdAt := "t0", updatedAt := "t0" }],
   rfl, rfl, by decide⟩

/-- C2 amended: every successful create assigns
displayOrder = max(existing displayOrder) + 1 when the store is
nonempty, and displayOrder = 1 (not 0) when the store is empty. -/
theorem createTodo_displayOrder_spec (text : Option String)
    (meta : CreateMetadataRaw) (id now : String) (s : List Todo)
    (t : Todo) (s2 : List Todo)
    (h : createTodo text meta id now s = Except.ok (t, s2)) :
    (s = [] → t.displayOrder = 1) ∧
    (∀ m, maxDisplayOrder s = some m → t.displayOrder = m + 1) := by
  obtain ⟨-, hd, -⟩ := createTodo_ok_shape h
  constructor
  · intro hs
    subst hs
    simpa [maxDisplayOrder, jsOrInt] using hd
  · intro m hm
    rw [hd, hm]
    by_cases h0 : m = 0
    · subst h0
      simp [jsOrInt]
    · simp [jsOrInt, h0]

/-- C2 witness: concrete nonempty store whose maximum displayOrder is
2, so the new item receives 3. -/
theorem createTodo_displayOrder_spec_witness :
    (([tA, tB] : List Todo) = [] →
      Todo.displayOrder
        { id := "id1", text := "a", completed := false, starred := false,
          priority := 3, tags := [], dueDate := none, displayOrder := 3,
          createdAt := "t0", updatedAt := "t0" } = 1) ∧
    (∀ m, maxDisplayOrder [tA, tB] = some m →
      Todo.displayOrder
        { id := "id1", text := "a", completed := false, starred := false,
          priority := 3, tags := [], dueDate := none, displayOrder := 3,
          createdAt := "t0", updatedAt := "t0" } = m + 1) :=
  createTodo_displayOrder_spec (some "a") {} "id1" "t0" [tA, tB]
    { id := "id1", text := "a", completed := false, starred := false,
      priority := 3, tags := [], dueDate := none, displayOrder := 3,
      createdAt := "t0", updatedAt := "t0" }
    [tA, tB,
     { id := "id1", text := "a", completed := false, starred := false,
       priority := 3, tags := [], dueDate := none, displayOrder := 3,
       createdAt := "t0", updatedAt := "t0" }]
    rfl

/-- C10: every successfully created item has completed = false, for
every metadata bag, including bags carrying a completed key (the
schema strips it before the insert ever sees it). -/
theorem createTodo_completed_false (text : Option String)
    (meta : CreateMetadataRaw) (id now : String) (s : List Todo)
    (t : Todo) (s2 : List Todo)
    (h : createTodo text meta id now s = Except.ok (t, s2)) :
    t.completed = false :=
  (createTodo_ok_shape h).1

/-- C10 witness: even with completed set to true in the metadata bag,
the created item is not completed. -/
theorem createTodo_completed_false_witness :
    Todo.completed
      { id := "id1", text := "a", completed := false, starred := false,
        priority := 3, tags := [], dueDate := none, displayOrder := 1,
        createdAt := "t0", updatedAt := "t0" } = false :=
  createTodo_completed_false (some "a") { completed := some true }
    "id1" "t0" []
    { id := "id1", text := "a", completed := false, starred := false,
      priority := 3, tags := [], dueDate := none, displayOrder := 1,
      createdAt := "t0", updatedAt := "t0" }
    [{ id := "id1", text := "a", completed := false, starred := false,
       priority := 3, tags := [], dueDate := none, displayOrder := 1,
       createdAt := "t0", updatedAt := "t0" }]
    rfl

/-- C9 counterexample: the id abc is missing from the empty store, yet
deleteTodo throws the uuid validation error instead of returning
false. -/
theorem deleteTodo_malformed_id_throws :
    deleteTodo "abc" [] = Except.error "Invalid uuid" := rfl

/-- C9 amended: for every id in uuid format, deleteTodo never throws,
returns true iff a row with that id existed (and removes every such
row), and returns false when the id is missing from the store. -/
theorem deleteTodo_valid_id_spec (id : String) (s : List Todo)
    (h : isUuidFormat id = true) :
    ∃ r s2, deleteTodo id s = Except.ok (r, s2) ∧
      (r = true ↔ ∃ t ∈ s, t.id = id) ∧
      s2 = s.filter fun t => ¬ (t.id = id) := by
  refine ⟨decide ((s.filter fun t => ¬ (t.id = id)).length < s.length),
    s.filter fun t => ¬ (t.id = id), by simp [deleteTodo, h], ?_, rfl⟩
  rw [decide_eq_true_eq, List.length_filter_lt_length_iff_exists]
  simp

/-- C9 witness: deleting the nil uuid from the empty store returns
false without throwing. -/
theorem deleteTodo_valid_id_spec_witness :
    ∃ r s2,
      deleteTodo "00000000-0000-0000-0000-000000000000" [] = Except.ok (r, s2) ∧
      (r = true ↔ ∃ t ∈ ([] : List Todo), t.id = "00000000-0000-0000-0000-000000000000") ∧
      s2 = List.filter (fun t => ¬ (t.id = "00000000-0000-0000-0000-000000000000")) [] :=
  deleteTodo_valid_id_spec "00000000-0000-0000-0000-000000000000" [] (by decide)

/-- C7 failing run: a created item with text a is updated with the
whitespace-only text, which TodoUpdateSchema accepts (its length is 1
before trimming), and the stored text becomes the empty string,
breaking the never-empty-after-trim invariant. -/
theorem updateTodo_whitespace_text_stores_empty :
    ∃ t1 s1 t2 s2,
      createTodo (some "a") {} uuidA "t0" [] = Except.ok (t1, s1) ∧
      updateTodo uuidA { text := some " " } "t1" s1 = Except.ok (t2, s2) ∧
      t2.text = "" ∧ (jsTrim t2.text).length = 0 :=
  ⟨{ id := uuidA, text := "a", completed := false, starred := false,
     priority := 3, tags := [], dueDate := none, displayOrder := 1,
     createdAt := "t0", updatedAt := "t0" },
   [{ id := uuidA, text := "a", completed := false, starred := false,
      priority := 3, tags := [], dueDate := none, displayOrder := 1,
      createdAt := "t0", updatedAt := "t0" }],
   { id := uuidA, text := "", completed := false, starred := false,
     priority := 3, tags := [], dueDate := none, displayOrder := 1,
     createdAt := "t0", updatedAt := "t1" },
   [{ id := uuidA, text := "", completed := false, starred := false,
      priority := 3, tags := [], dueDate := none, displayOrder := 1,
      createdAt := "t0", updatedAt := "t1" }],
   rfl, rfl, rfl, by decide⟩

/-- Characterization of the reorder fold for duplicate-free id lists:
every row whose id occurs in the list receives the starting index plus
the position of its id, and a fresh updatedAt; every other row is
untouched. -/
theorem applyReorder_eq (now : String) :
    ∀ (ids : List String), ids.Nodup → ∀ (n : Nat) (s : List Todo),
      applyReorder now n ids s = s.map fun t =>
        if t.id ∈ ids then
          { t with displayOrder := ((n + ids.indexOf t.id : Nat) : Int),
                   updatedAt := now }
        else t := by
  intro ids
  induction ids with
  | nil =>
    intro _ n s
    simp [applyReorder]
  | cons hd rest ih =>
    intro hnd n s
    obtain ⟨hni, hrest⟩ := List.nodup_cons.mp hnd
    rw [applyReorder, ih hrest (n + 1) (reorderOne n now hd s),
      reorderOne, List.map_map]
    apply List.map_congr_left
    intro t _
    by_cases h1 : t.id = hd
    · have h2 : hd ∉ rest := hni
      simp only [Function.comp_apply, if_pos h1]
      rw [if_neg (by simpa [h1] using h2), if_pos (by simp [h1])]
      rw [h1, List.indexOf_cons_self]
      simp
    · simp only [Function.comp_apply, if_neg h1]
      by_cases h2 : t.id ∈ rest
      · rw [if_pos h2, if_pos (by simp [h2]),
          List.indexOf_cons_ne _ (fun he => h1 he.symm)]
        have h3 : ((n + 1) + List.indexOf t.id rest : Nat)
            = (n + ((List.indexOf t.id rest).succ) : Nat) := by omega
        rw [h3]
      · rw [if_neg h2, if_neg (by simp [h1, h2])]

/-- C1: for every store and every duplicate-free list of ids that are
all present, reorderTodos rewrites exactly the mentioned rows, giving
each the 0-based position of its id as displayOrder (and a fresh
updatedAt), leaves every unmentioned row fully unchanged, and an empty
list changes nothing. -/
theorem reorderTodos_spec (s : List Todo) (ids : List String) (now : String)
    (hnd : ids.Nodup) (_hpres : ∀ id ∈ ids, ∃ t ∈ s, t.id = id) :
    reorderTodos ids now s = (s.map fun t =>
      if t.id ∈ ids then
        { t with displayOrder := ((ids.indexOf t.id : Nat) : Int),
                 updatedAt := now }
      else t) ∧
    reorderTodos [] now s = s := by
  constructor
  · rw [reorderTodos, applyReorder_eq now ids hnd 0 s]
    simp
  · simp [reorderTodos, applyReorder]

/-- C1 witness: three stored items, the first and third reordered;
the untouched middle item keeps displayOrder 2. -/
theorem reorderTodos_spec_witness :
    reorderTodos [uuidC, uuidA] "2025-02-01T00:00:00.000Z" [tA, tB, tC] =
      ([tA, tB, tC].map fun t =>
        if t.id ∈ [uuidC, uuidA] then
          { t with displayOrder := (([uuidC, uuidA].indexOf t.id : Nat) : Int),
                   updatedAt := "2025-02-01T00:00:00.000Z" }
        else t) ∧
    reorderTodos [] "2025-02-01T00:00:00.000Z" [tA, tB, tC] = [tA, tB, tC] :=
  reorderTodos_spec [tA, tB, tC] [uuidC, uuidA] "2025-02-01T00:00:00.000Z"
    (by decide) (by decide)

/-- Every successful parse of an update bag returns the bag itself with
the schema-stripped displayOrder cleared. -/
theorem parseTodoUpdate_ok_shape {id : String} {u v : UpdateRaw}
    (h : parseTodoUpdate id u = Except.ok v) :
    v = { u with displayOrder := none } := by
  unfold parseTodoUpdate at h
  repeat' split at h
  all_goals simp_all

/-- C8: for every existing item and every accepted update, only the
supplied fields take new values, every omitted field keeps its prior
value, id and createdAt never change, updatedAt becomes the clock
reading (hence strictly increases whenever the clock moved forward),
and the other rows of the store are untouched. -/
theorem updateTodo_frame_spec (id : String) (u : UpdateRaw) (now : String)
    (s : List Todo) (t0 t2 : Todo) (s2 : List Todo)
    (hf : s.find? (fun t => t.id = id) = some t0)
    (h : updateTodo id u now s = Except.ok (t2, s2)) :
    t2.id = t0.id ∧ t2.createdAt = t0.createdAt ∧ t2.updatedAt = now ∧
    t2.text = (match u.text with | some tx => jsTrim tx | none => t0.text) ∧
    t2.completed = u.completed.getD t0.completed ∧
    t2.starred = u.starred.getD t0.starred ∧
    t2.priority = u.priority.getD t0.priority ∧
    t2.tags = u.tags.getD t0.tags ∧
    t2.dueDate = u.dueDate.getD t0.dueDate ∧
    (u.displayOrder = none → t2.displayOrder = t0.displayOrder) ∧
    (strLt t0.updatedAt now = true → strLt t0.updatedAt t2.updatedAt = true) ∧
    s2 = (s.map fun x => if x.id = id then t2 else x) := by
  unfold updateTodo at h
  cases hp : parseTodoUpdate id u with
  | error e => rw [hp] at h; simp at h
  | ok v =>
    rw [hp] at h
    have hv := parseTodoUpdate_ok_shape hp
    subst hv
    rw [hf] at h
    simp only [Except.ok.injEq, Prod.mk.injEq] at h
    obtain ⟨h1, h2⟩ := h
    subst h1
    subst h2
    exact ⟨rfl, rfl, rfl, rfl, rfl, rfl, rfl, rfl, rfl,
      fun _ => rfl, fun hlt => hlt, rfl⟩

/-- C8 witness: marking the second of two stored items completed by a
partial update changes only that field, both timestamps behave as
specified, and the first item is untouched. -/
theorem updateTodo_frame_spec_witness :
    Todo.id
        { tB with completed := true, updatedAt := "2025-03-01T00:00:00.000Z" }
      = tB.id ∧
    Todo.createdAt
        { tB with completed := true, updatedAt := "2025-03-01T00:00:00.000Z" }
      = tB.createdAt ∧
    Todo.updatedAt
        { tB with completed := true, updatedAt := "2025-03-01T00:00:00.000Z" }
      = "2025-03-01T00:00:00.000Z" ∧
    Todo.text { tB with completed := true, updatedAt := "2025-03-01T00:00:00.000Z" }
      = (match (none : Option String) with | some tx => jsTrim tx | none => tB.text) ∧
    Todo.completed
        { tB with completed := true, updatedAt := "2025-03-01T00:00:00.000Z" }
      = (some true).getD tB.completed ∧
    Todo.starred { tB with completed := true, updatedAt := "2025-03-01T00:00:00.000Z" }
      = (none : Option Bool).getD tB.starred ∧
    Todo.priority { tB with completed := true, updatedAt := "2025-03-01T00:00:00.000Z" }
      = (none : Option Int).getD tB.priority ∧
    Todo.tags { tB with completed := true, updatedAt := "2025-03-01T00:00:00.000Z" }
      = (none : Option (List String)).getD tB.tags ∧
    Todo.dueDate { tB with completed := true, updatedAt := "2025-03-01T00:00:00.000Z" }
      = (none : Option (Option String)).getD tB.dueDate ∧
    ((none : Option Int) = none →
      Todo.displayOrder
          { tB with completed := true, updatedAt := "2025-03-01T00:00:00.000Z" }
        = tB.displayOrder) ∧
    (strLt tB.updatedAt "2025-03-01T00:00:00.000Z" = true →
      strLt tB.updatedAt
        (Todo.updatedAt
          { tB with completed := true, updatedAt := "2025-03-01T00:00:00.000Z" })
        = true) ∧
    ([tA, { tB with completed := true, updatedAt := "2025-03-01T00:00:00.000Z" }] :
        List Todo)
      = ([tA, tB].map fun x =>
          if x.id = uuidB then
            { tB with completed := true, updatedAt := "2025-03-01T00:00:00.000Z" }
          else x) :=
  updateTodo_frame_spec uuidB { completed := some true }
    "2025-03-01T00:00:00.000Z" [tA, tB] tB
    { tB with completed := true, updatedAt := "2025-03-01T00:00:00.000Z" }
    [tA, { tB with completed := true, updatedAt := "2025-03-01T00:00:00.000Z" }]
    (by decide) rfl

/-- Totality of the bytewise list comparison. -/
theorem charListLe_total : ∀ xs ys : List Char,
    charListLe xs ys = true ∨ charListLe ys xs = true := by
  intro xs
  induction xs with
  | nil => intro ys; left; rfl
  | cons a as ih =>
    intro ys
    cases ys with
    | nil => right; rfl
    | cons b bs =>
      by_cases h1 : a.toNat < b.toNat
      · left; simp [charListLe, h1]
      · by_cases h2 : b.toNat < a.toNat
        · right; simp [charListLe, h2]
        · simpa [charListLe, h1, h2] using ih bs

/-- Transitivity of the bytewise list comparison. -/
theorem charListLe_trans : ∀ xs ys zs : List Char,
    charListLe xs ys = true → charListLe ys zs = true →
    charListLe xs zs = true := by
  intro xs
  induction xs with
  | nil => intro ys zs _ _; rfl
  | cons a as ih =>
    intro ys zs hxy hyz
    cases ys with
    | nil => simp [charListLe] at hxy
    | cons b bs =>
      cases zs with
      | nil => simp [charListLe] at hyz
      | cons c cs =>
        simp only [charListLe] at hxy hyz ⊢
        split_ifs at hxy hyz ⊢ with h1 h2 h3 h4 h5 h6 <;>
          first
          | rfl
          | omega
          | (exact ih bs cs hxy hyz)

/-- Transitivity of the listing comparison, in the shape the sorting
lemma expects. -/
theorem todoLe_trans : ∀ a b c : Todo,
    todoLe a b = true → todoLe b c = true → todoLe a c = true := by
  intro a b c hab hbc
  unfold todoLe at hab hbc ⊢
  unfold strLe at hab hbc ⊢
  split_ifs at hab hbc ⊢ <;>
    first
    | rfl
    | omega
    | (exact charListLe_trans _ _ _ hbc hab)

/-- Totality of the listing comparison, in the shape the sorting lemma
expects. -/
theorem todoLe_total : ∀ a b : Todo, (todoLe a b || todoLe b a) = true := by
  intro a b
  unfold todoLe
  split_ifs <;>
    first
    | rfl
    | omega
    | simp_all
  all_goals
    rcases charListLe_total b.createdAt.data a.createdAt.data with h | h <;>
      simp [strLe, h]

/-- The boolean listing comparison implies the ordering predicate of
the spec. -/
theorem todoLe_imp_specOrder (a b : Todo) (h : todoLe a b = true) :
    specOrder a b := by
  unfold todoLe at h
  unfold specOrder
  split_ifs at h with h1 h2 h3 h4
  · exact Or.inl h1
  · exact Or.inr ⟨by omega, Or.inl h3⟩
  · exact Or.inr ⟨by omega, Or.inr ⟨by omega, h⟩⟩

/-- C3 counterexample: with a supplied empty tags list, getTodos
returns the stored untagged item even though it carries none of the
requested tags, while the claimed any-of predicate rejects every
item. -/
theorem getTodos_emptyTags_counterexample :
    getTodos { tags := some [] } [tA] = Except.ok [tA] ∧
    specTagFilterStrict { tags := some [] } tA = false := by
  constructor
  · simp [getTodos, validFilters, sqlWhere, tagPass, List.mergeSort_singleton]
  · rfl

/-- C3 amended: for every valid filter bag, getTodos succeeds with a
permutation of exactly the stored items matching the intersection of
the supplied predicates, where a supplied tags filter passes an item
iff the requested list is empty or the item carries at least one
requested tag, and the result is sorted by displayOrder ascending,
then priority ascending, then createdAt descending. -/
theorem getTodos_spec (f : TodoFilters) (s : List Todo)
    (hf : validFilters f = true) :
    ∃ r, getTodos f s = Except.ok r ∧
      r.Perm (s.filter (specMatches f)) ∧
      r.Pairwise specOrder := by
  refine ⟨((s.filter (sqlWhere f)).mergeSort todoLe).filter (tagPass f),
    by simp [getTodos, hf], ?_, ?_⟩
  · have h1 : ((s.filter (sqlWhere f)).mergeSort todoLe).Perm
        (s.filter (sqlWhere f)) := List.mergeSort_perm _ _
    have h2 := h1.filter (tagPass f)
    have h3 : (s.filter (sqlWhere f)).filter (tagPass f)
        = s.filter (specMatches f) := by
      rw [List.filter_filter]
      apply List.filter_congr
      intro t _
      unfold tagPass sqlWhere specMatches
      rw [Bool.eq_iff_iff]
      cases f.starred <;> cases f.completed <;> cases f.priority <;>
        cases f.tags <;> simp <;> tauto
    exact h3 ▸ h2
  · have hp := List.sorted_mergeSort todoLe_trans todoLe_total
      (s.filter (sqlWhere f))
    have hsub : (((s.filter (sqlWhere f)).mergeSort todoLe).filter
        (tagPass f)).Sublist ((s.filter (sqlWhere f)).mergeSort todoLe) :=
      List.filter_sublist _
    exact (List.Pairwise.sublist hsub hp).imp fun h => todoLe_imp_specOrder _ _ h

/-- C3 witness: filtering three stored items by the work tag returns
exactly the tagged item, sorted. -/
theorem getTodos_spec_witness :
    ∃ r, getTodos { tags := some ["work"] } [tA, tB, tC] = Except.ok r ∧
      r.Perm ([tA, tB, tC].filter (specMatches { tags := some ["work"] })) ∧
      r.Pairwise specOrder :=
  getTodos_spec { tags := some ["work"] } [tA, tB, tC] (by decide)

/-- C4: when the LLM script answers tool_use twice (each response
carrying a first tool_use block) and then stops with any other reason,
the chat turn executes the tool executor exactly twice, servicing only
the first tool_use block of each response, and returns the first text
block of the final response together with the prior history plus
exactly six appended messages: the new user message, an assistant and
a tool-result message per iteration, and the final assistant
message. -/
theorem chat_two_tool_turns {σ : Type}
    (exec : String → ToolArgs → σ → Except String (String × σ))
    (hist : List Message) (userMsg : String)
    (r1 r2 r3 : LlmResponse) (tid1 tn1 : String) (ta1 : ToolArgs)
    (tid2 tn2 : String) (ta2 : ToolArgs) (st : σ) (ans : String)
    (h1 : r1.stop_reason = "tool_use") (h2 : r2.stop_reason = "tool_use")
    (h3 : ¬ r3.stop_reason = "tool_use")
    (f1 : findToolUse r1.content = some (tid1, tn1, ta1))
    (f2 : findToolUse r2.content = some (tid2, tn2, ta2))
    (ht : findFirstText r3.content = some ans) :
    chat exec hist userMsg r1 [r2, r3] st =
      some (ans,
        hist ++
          [⟨"user", .str userMsg⟩,
           ⟨"assistant", .blocks r1.content⟩,
           ⟨"user", .blocks [.toolResult tid1 (execResult exec tn1 ta1 st).1 none]⟩,
           ⟨"assistant", .blocks r2.content⟩,
           ⟨"user", .blocks [.toolResult tid2
             (execResult exec tn2 ta2 (execResult exec tn1 ta1 st).2).1 none]⟩,
           ⟨"assistant", .blocks r3.content⟩],
        (execResult exec tn2 ta2 (execResult exec tn1 ta1 st).2).2, 2) := by
  simp only [chat, runLoop, h1, h2, h3, f1, f2, ht, if_true, if_false,
    ite_true, ite_false, reduceIte, Option.getD_some, List.append_assoc,
    List.cons_append, List.nil_append, Option.some.injEq]

/-- C4 witness: a two-tool script with a constant executor; the second
response carries a text block before its tool_use block, and only the
tool_use block is serviced. -/
theorem chat_two_tool_turns_witness :
    chat (σ := Unit) (fun _ _ st => Except.ok ("ok", st)) [] "hello"
      ⟨"tool_use", [Block.toolUse "t1" "create_todo" {}]⟩
      [⟨"tool_use", [Block.text "thinking", Block.toolUse "t2" "list_todos" {}]⟩,
       ⟨"end_turn", [Block.text "done"]⟩] () =
      some ("done",
        [⟨"user", .str "hello"⟩,
         ⟨"assistant", .blocks [Block.toolUse "t1" "create_todo" {}]⟩,
         ⟨"user", .blocks [.toolResult "t1" "ok" none]⟩,
         ⟨"assistant", .blocks [Block.text "thinking",
           Block.toolUse "t2" "list_todos" {}]⟩,
         ⟨"user", .blocks [.toolResult "t2" "ok" none]⟩,
         ⟨"assistant", .blocks [Block.text "done"]⟩],
        (), 2) :=
  chat_two_tool_turns (fun _ _ st => Except.ok ("ok", st)) [] "hello"
    ⟨"tool_use", [Block.toolUse "t1" "create_todo" {}]⟩
    ⟨"tool_use", [Block.text "thinking", Block.toolUse "t2" "list_todos" {}]⟩
    ⟨"end_turn", [Block.text "done"]⟩
    "t1" "create_todo" {} "t2" "list_todos" {} () "done"
    rfl rfl (by decide) rfl rfl rfl

/-- C5 failing run: a tool call on a nonexistent id makes the web
dispatcher throw; the orchestrator absorbs the error and continues the
loop to the final answer, but the tool_result message it appends
carries the plain error text with no isError flag (the flag field is
none, not some true): the computed error status is discarded. -/
theorem chat_tool_error_run :
    chat (webExec uuidB "2025-04-01T00:00:00.000Z") [] "mark it done"
      ⟨"tool_use", [Block.toolUse "toolu_1" "update_todo"
        { id := some uuidA, completed := some true }]⟩
      [⟨"end_turn", [Block.text "done"]⟩] ([] : List Todo) =
      some ("done",
        [⟨"user", .str "mark it done"⟩,
         ⟨"assistant", .blocks [Block.toolUse "toolu_1" "update_todo"
           { id := some uuidA, completed := some true }]⟩,
         ⟨"user", .blocks [.toolResult "toolu_1"
           ("Error: Todo " ++ uuidA ++ " not found") none]⟩,
         ⟨"assistant", .blocks [Block.text "done"]⟩],
        [], 1) := by
  decide

/-- C6 counterexample: the web dispatcher receives the known tool
create_todo with its required text argument missing, performs no
argument-shape check of its own, and invokes the Store method (the
invocation counter is 1, not 0); the error produced is the Store
validation message, not a dispatcher-level one. -/
theorem executeMCPTool_invokes_store_without_precheck :
    executeMCPTool uuidB "2025-04-01T00:00:00.000Z" "create_todo" {} [] =
      (Except.error "Todo text is required and cannot be empty", [], 1) := rfl

/-- Inversion of Except.map into the error constructor. -/
theorem except_map_error {α β γ : Type} {x : Except γ α} {f : α → β} {e : γ}
    (h : x.map f = Except.error e) : x = Except.error e := by
  cases x with
  | ok a => simp [Except.map] at h
  | error e2 => simpa [Except.map] using h

/-- C6 amended: the stdio MCP dispatcher checks the argument shape
first: for every known tool whose arguments fail the per-tool input
schema, it answers an isError result carrying the schema message and
the TodoService is never invoked (counter 0) and the store is
unchanged. The web dispatcher executeMCPTool has no such pre-check and
relies on Store-level validation. -/
theorem handleCallTool_parse_fails_before_store (freshId now name : String)
    (args : ToolArgs) (s : List Todo) (e : String)
    (hk : name ∈ knownTools) (hp : toolParse name args = Except.error e) :
    handleCallTool freshId now name args s = (⟨"Error: " ++ e, true⟩, s, 0) := by
  simp only [knownTools, List.mem_cons, List.not_mem_nil, or_false] at hk
  rcases hk with rfl | rfl | rfl | rfl | rfl | rfl <;>
    simp only [toolParse] at hp <;>
    simp [handleCallTool, except_map_error hp]

/-- C6 witness: delete_todo with a malformed id is rejected by the
schema with zero TodoService invocations. -/
theorem handleCallTool_parse_fails_before_store_witness :
    handleCallTool uuidB "2025-04-01T00:00:00.000Z" "delete_todo"
      { id := some "abc" } [] =
      (⟨"Error: " ++ "Valid todo ID required", true⟩, [], 0) :=
  handleCallTool_parse_fails_before_store uuidB "2025-04-01T00:00:00.000Z"
    "delete_todo" { id := some "abc" } [] "Valid todo ID required"
    (by decide) rfl

end McpTodo
